import Mathlib

/-!
Shallow embedding of the web3 connection manager (`src/manager.ts`) and the
properties claimed of it.

Modelling conventions:
* JavaScript `undefined` vs `null` vs a value is modelled with nested options
  where the distinction is observable (the `account` field is
  `Option (Option String)`: `none` = `undefined` (absent), `some none` = `null`,
  `some (some a)` = a string account).
* JavaScript errors are modelled as a record carrying the optional numeric
  `code` property and a message; object identity is approximated by value
  equality (the manager only ever compares `error.code` and stores the error).
* The opaque `Library` handle is modelled as `Nat` (a JS object is always
  truthy, so presence of a library is simply `isSome`).
* An `async` function that may `throw` is modelled as a pure function
  returning `Except Err _`; its dispatches to the reducer are modelled by
  threading the `Web3State` snapshot explicitly and returning the snapshot
  holding after all dispatches of the call.
* JS truthiness is modelled faithfully: an empty string and the number `0`
  are falsy, objects are truthy, `undefined`/`null` are falsy.
-/

namespace ReactWeb3

/-- A JavaScript error value as the manager observes it: an optional numeric
`code` property and a message. -/
structure Err where
  code : Option Nat
  msg : String
deriving DecidableEq, Repr

/-- The opaque connector-specific library handle (`Library` in `types.ts`,
not under `src/`); the manager never inspects it, so any inhabited type with
decidable equality serves. A JS object is always truthy. -/
abbrev Library : Type := Nat

/-- The library-name selector passed to `useWeb3Manager` and forwarded to
`connector.getLibrary` (`LibraryName` in `types.ts`, not under `src/`). -/
abbrev LibraryName : Type := String

/-- Modelled from the spec: the Connector Capability Interface of section 6
(the `Connector` class lives in `./connectors`, which is not under `src/`).
Each asynchronous accessor is modelled by the outcome of awaiting it:
`Except.ok` for resolution, `Except.error` for rejection. `getAccount`
resolves to a string or `null`. -/
structure Connector where
  onActivation : Except Err Unit
  getLibrary : LibraryName → Except Err Library
  getNetworkId : Library → Except Err Nat
  getAccount : Library → Except Err (Option String)
  activateAccountImmediately : Bool
  listenForNetworkChanges : Bool
  listenForAccountChanges : Bool

/-- The connector registry passed to `useWeb3Manager`: a JS object mapping
connector names to connectors, modelled as an association list.
`Object.keys` is the list of first components. -/
abbrev Connectors : Type := List (String × Connector)

/-- Modelled from the spec: the recognized WalletConnect user/timeout
cancellation code `WalletConnectConnector.errorCodes.WALLETCONNECT_TIMEOUT`
(defined in `./connectors`, not under `src/`). Its concrete value is never
observed by the manager other than through equality with `error.code`, so
any fixed value serves. -/
def WALLETCONNECT_TIMEOUT : Nat := 0

/-- The manager's state snapshot (`Web3State` in `manager.ts`).
`account`: `none` = `undefined` (not yet determined), `some none` = `null`
(connector active, no account selected), `some (some a)` = account string.
`error`: `none` = `null`. -/
structure Web3State where
  connectorName : Option String
  library : Option Library
  networkId : Option Nat
  account : Option (Option String)
  error : Option Err
deriving DecidableEq, Repr

/-- `initialWeb3State` from `manager.ts`: every field absent, `error = null`. -/
def initialWeb3State : Web3State :=
  { connectorName := none, library := none, networkId := none,
    account := none, error := none }

/-- The action union dispatched to `web3StateReducer`. Payload types are the
JS values dispatched at each call site in `manager.ts`. `UPDATE_ACCOUNT`
carries a full JS value (`undefined`, `null`, or a string) because
`accountsChangedListenerHandler` dispatches `accounts[0]`, which is
`undefined` on an empty list. As a closed sum type, the reducer's
`default: throw` arm for unrecognized tags is unrepresentable. -/
inductive Action where
  | UPDATE_CONNECTOR_VALUES (connectorName : String) (library : Library)
      (networkId : Nat) (account : Option String)
  | UPDATE_NETWORK_ID (networkId : Nat)
  | UPDATE_ACCOUNT (account : Option (Option String))
  | UPDATE_ERROR (error : Err)
  | UPDATE_ERROR_WITH_NAME (error : Err) (connectorName : String)
  | RESET

/-- `web3StateReducer` from `manager.ts`: the pure single-writer transition
function of the state store. -/
def web3StateReducer (state : Web3State) (action : Action) : Web3State :=
  match action with
  | .UPDATE_CONNECTOR_VALUES connectorName library networkId account =>
      { connectorName := some connectorName, library := some library,
        networkId := some networkId, account := some account, error := none }
  | .UPDATE_NETWORK_ID networkId => { state with networkId := some networkId }
  | .UPDATE_ACCOUNT account => { state with account := account }
  | .UPDATE_ERROR error => { state with error := some error }
  | .UPDATE_ERROR_WITH_NAME error connectorName =>
      { state with error := some error, connectorName := some connectorName }
  | .RESET => initialWeb3State

/-- JS truthiness of a `string | undefined` value: `undefined` and the empty
string are falsy. -/
def truthyString : Option String → Bool
  | some s => s != ""
  | none => false

/-- JS truthiness of a `number | undefined` value: `undefined` and `0` are
falsy. -/
def truthyNat : Option Nat → Bool
  | some n => n != 0
  | none => false

/-- The derived `web3Initialized` boolean computed in `useWeb3Manager`:
`!!(connectorName && library && networkId && account !== undefined && !error)`.
`connectorName` and `networkId` go through JS truthiness; `library` and
`error` are objects (truthy whenever present); `account` is compared against
`undefined` with strict inequality. -/
def web3Initialized (s : Web3State) : Bool :=
  truthyString s.connectorName && s.library.isSome && truthyNat s.networkId &&
    s.account.isSome && s.error.isNone

/-- The `activeConnector` binding computed in `useWeb3Manager`:
`web3State.connectorName ? connectors[web3State.connectorName] : undefined`.
The guard is JS truthiness of the name, and indexing a JS object with a
missing key yields `undefined`. -/
def activeConnector (connectors : Connectors) (s : Web3State) : Option Connector :=
  match s.connectorName with
  | some n => if n != "" then connectors.lookup n else none
  | none => none

/-- `processError` from `manager.ts`. The source either returns `undefined`
(the recognized WalletConnect timeout code: the error is eaten), or
dispatches the error — scoped with `UPDATE_ERROR_WITH_NAME` when the
`connectorName` argument is truthy, global with `UPDATE_ERROR` otherwise —
and then throws it. The model returns the outcome (`Except.error` for a
throw, `Except.ok` for a normal return carrying `Error | undefined`) paired
with the snapshot after its dispatches. -/
def processError (error : Err) (connectorName : Option String) (s : Web3State) :
    Except Err (Option Err) × Web3State :=
  if error.code == some WALLETCONNECT_TIMEOUT then (.ok none, s)
  else
    match connectorName with
    | some n =>
        if n != "" then
          (.error error, web3StateReducer s (.UPDATE_ERROR_WITH_NAME error n))
        else
          (.error error, web3StateReducer s (.UPDATE_ERROR error))
    | none => (.error error, web3StateReducer s (.UPDATE_ERROR error))

/-- The `try` block of `initializeConnectorValues`: awaits
`connector.onActivation()`, `connector.getLibrary(libraryName)`, and the
`Promise.all` of the network-id promise and the account promise (the latter
is the literal `null` when `activateAccountImmediately` is false). The
network-id promise is created first, so its rejection is the one observed
when it rejects. Resolves to the three values joined for
`UPDATE_CONNECTOR_VALUES`; rejects with the first rejection. -/
def activationAttempt (connector : Connector) (libraryName : LibraryName) :
    Except Err (Library × Nat × Option String) := do
  let _ ← connector.onActivation
  let library ← connector.getLibrary libraryName
  let networkId ← connector.getNetworkId library
  let account ←
    if connector.activateAccountImmediately then connector.getAccount library
    else pure none
  pure (library, networkId, account)

/-- The `TypeError` JavaScript raises when `connectors[connectorName]` is
`undefined` and `connector.onActivation` is read from it; such an error has
no `code` property. Unreachable through `setConnector`, which validates the
name first. -/
def jsUndefinedTypeError : Err :=
  { code := none, msg := "TypeError: connector is undefined" }

/-- `initializeConnectorValues` from `manager.ts`: runs the activation
attempt; on joint success dispatches `UPDATE_CONNECTOR_VALUES` atomically.
On any rejection: rethrows unmodified when `suppressGlobalError` is true,
otherwise routes through `processError` — whose own throw propagates, and
whose returned value, were it truthy, would be thrown by the
`if (processedError) throw processedError` guard. -/
def initializeConnectorValues (connectors : Connectors) (libraryName : LibraryName)
    (connectorName : String) (suppressGlobalError : Bool) (s : Web3State) :
    Except Err Unit × Web3State :=
  let tryResult : Except Err Web3State :=
    match connectors.lookup connectorName with
    | none => .error jsUndefinedTypeError
    | some connector =>
        (activationAttempt connector libraryName).map fun r =>
          web3StateReducer s (.UPDATE_CONNECTOR_VALUES connectorName r.1 r.2.1 r.2.2)
  match tryResult with
  | .ok s1 => (.ok (), s1)
  | .error error =>
      if suppressGlobalError then (.error error, s)
      else
        match processError error (some connectorName) s with
        | (.error e2, s2) => (.error e2, s2)
        | (.ok (some processedError), s2) => (.error processedError, s2)
        | (.ok none, s2) => (.ok (), s2)

/-- `setConnector` from `manager.ts`: validates the name against
`Object.keys(connectors)` (unknown name: logged, resolves with no state
change), guards against re-activating the current name (logged, resolves
with no state change), otherwise delegates to `initializeConnectorValues`. -/
def setConnector (connectors : Connectors) (libraryName : LibraryName)
    (connectorName : String) (suppressGlobalError : Bool) (s : Web3State) :
    Except Err Unit × Web3State :=
  let validConnectorNames := connectors.map Prod.fst
  if connectorName ∉ validConnectorNames then (.ok (), s)
  else if some connectorName = s.connectorName then (.ok (), s)
  else initializeConnectorValues connectors libraryName connectorName suppressGlobalError s

/-- `unsetConnector` from `manager.ts`: dispatches `RESET`. -/
def unsetConnector (s : Web3State) : Web3State :=
  web3StateReducer s .RESET

/-- `activateAccount` from `manager.ts`: three guarded silent no-ops (not
initialized; `account !== null`; no active connector or library), then
fetches the account and dispatches `UPDATE_ACCOUNT`; a rejection is
rethrown unmodified under suppression, otherwise routed through the global
(unscoped) `processError`. -/
def activateAccount (connectors : Connectors) (suppressGlobalError : Bool)
    (s : Web3State) : Except Err Unit × Web3State :=
  if !web3Initialized s then (.ok (), s)
  else if s.account != some none then (.ok (), s)
  else
    match activeConnector connectors s, s.library with
    | some connector, some library =>
        (match connector.getAccount library with
         | .ok account => (.ok (), web3StateReducer s (.UPDATE_ACCOUNT (some account)))
         | .error error =>
             if suppressGlobalError then (.error error, s)
             else
               match processError error none s with
               | (.error e2, s2) => (.error e2, s2)
               | (.ok (some processedError), s2) => (.error processedError, s2)
               | (.ok none, s2) => (.ok (), s2))
    | _, _ => (.ok (), s)

/-- `networkChangedListenerHandler` from `manager.ts`: dispatches
`UPDATE_NETWORK_ID` with the reported network id. -/
def networkChangedListenerHandler (s : Web3State) (networkId : Nat) : Web3State :=
  web3StateReducer s (.UPDATE_NETWORK_ID networkId)

/-- `accountsChangedListenerHandler` from `manager.ts`: dispatches
`UPDATE_ACCOUNT` with `accounts[0]`, which is the JS value `undefined`
(modelled `none`) when the reported list is empty. -/
def accountsChangedListenerHandler (s : Web3State) (accounts : List String) :
    Web3State :=
  web3StateReducer s (.UPDATE_ACCOUNT (accounts.head?.map some))

/-- Replace a connector's account accessor, leaving every other capability
untouched. Used to express "`getAccount` is never invoked" extensionally: an
operation that never calls `getAccount` yields the same outcome whichever
accessor is installed. -/
def setGetAccount (f : Library → Except Err (Option String)) (c : Connector) :
    Connector :=
  { c with getAccount := f }

/-- Replace the account accessor of every connector in a registry. -/
def mapGetAccount (f : Library → Except Err (Option String))
    (connectors : Connectors) : Connectors :=
  connectors.map fun p => (p.1, setGetAccount f p.2)

/-- The claim's reading of the derived `web3Initialized` flag, stated from
the spec's words for comparison with the source-derived `web3Initialized`:
`connectorName` present, `library` present, `networkId` present, `account`
not absent, `error` null — presence taken as `isSome`, without JS
truthiness. -/
def web3InitializedPresence (s : Web3State) : Bool :=
  s.connectorName.isSome && s.library.isSome && s.networkId.isSome &&
    s.account.isSome && s.error.isNone

/-- A sample non-timeout rejection. -/
def eBoom : Err := { code := some 42, msg := "boom" }

/-- A sample rejection carrying the recognized WalletConnect timeout code. -/
def eTimeout : Err := { code := some WALLETCONNECT_TIMEOUT, msg := "walletconnect timeout" }

/-- A connector whose every step succeeds. -/
def cGood : Connector :=
  { onActivation := .ok (), getLibrary := fun _ => .ok 7,
    getNetworkId := fun _ => .ok 1, getAccount := fun _ => .ok (some "0xabc"),
    activateAccountImmediately := true, listenForNetworkChanges := true,
    listenForAccountChanges := true }

/-- A connector whose activation hook rejects with `eBoom`. -/
def cBad : Connector := { cGood with onActivation := .error eBoom }

/-- A connector whose activation hook rejects with the timeout code. -/
def cTimeoutRejecting : Connector := { cGood with onActivation := .error eTimeout }

/-- A connector whose network-id fetch rejects with `eBoom`. -/
def cNetErr : Connector := { cGood with getNetworkId := fun _ => .error eBoom }

/-- A successful connector that declines the synchronous account fetch. -/
def cNoImm : Connector := { cGood with activateAccountImmediately := false }

/-- An account accessor that always rejects; installing it detects any
account fetch. -/
def failingFetch : Library → Except Err (Option String) := fun _ => .error eBoom

/-- A registry whose single key is the empty string — a registered connector
name that JS truthiness treats as falsy. -/
def regEmptyName : Connectors := [("", cBad)]

/-- The state exhibiting the gap between presence and JS truthiness:
every field is present and `error` is null, but `networkId` is `0` and
`connectorName` is the empty string, both falsy. -/
def cexPresenceState : Web3State :=
  { connectorName := some "", library := some 0, networkId := some 0,
    account := some none, error := none }

end ReactWeb3

namespace ReactWeb3

/-! ### Helper lemmas -/

theorem exceptBind_ok {α β : Type} (a : α) (f : α → Except Err β) :
    ((Except.ok a : Except Err α) >>= f) = f a := rfl

theorem exceptBind_error {α β : Type} (e : Err) (f : α → Except Err β) :
    ((Except.error e : Except Err α) >>= f) = Except.error e := rfl

theorem exceptPure {α : Type} (a : α) : (pure a : Except Err α) = Except.ok a := rfl

theorem exceptMap_error {α β : Type} (f : α → β) (e : Err) :
    Except.map f (Except.error e : Except Err α) = Except.error e := rfl

theorem exceptMap_ok {α β : Type} (f : α → β) (a : α) :
    Except.map f (Except.ok a : Except Err α) = Except.ok (f a) := rfl

theorem mem_keys_of_lookup_eq_some {l : Connectors} {n : String} {c : Connector}
    (h : l.lookup n = some c) : n ∈ l.map Prod.fst := by
  induction l with
  | nil => simp at h
  | cons p t ih =>
      obtain ⟨k, v⟩ := p
      rw [List.lookup_cons] at h
      cases hbk : n == k with
      | true => simp [eq_of_beq hbk]
      | false =>
          rw [hbk] at h
          exact List.mem_cons_of_mem _ (ih h)

theorem setConnector_proceeds (connectors : Connectors) (ln : LibraryName)
    (name : String) (b : Bool) (s : Web3State)
    (hmem : name ∈ connectors.map Prod.fst)
    (hcur : s.connectorName ≠ some name) :
    setConnector connectors ln name b s =
      initializeConnectorValues connectors ln name b s := by
  simp only [setConnector]
  rw [if_neg (not_not_intro hmem), if_neg (fun h => hcur h.symm)]

theorem activationAttempt_error_of_onActivation {c : Connector}
    {ln : LibraryName} {e : Err} (h : c.onActivation = .error e) :
    activationAttempt c ln = .error e := by
  simp [activationAttempt, h, exceptBind_error]

theorem activationAttempt_ok_noImmediate {c : Connector} {ln : LibraryName}
    {lib : Library} {nid : Nat}
    (hact : c.onActivation = .ok ()) (hlib : c.getLibrary ln = .ok lib)
    (hnid : c.getNetworkId lib = .ok nid)
    (himm : c.activateAccountImmediately = false) :
    activationAttempt c ln = .ok (lib, nid, none) := by
  simp [activationAttempt, hact, hlib, hnid, himm, exceptBind_ok, exceptPure]

theorem activationAttempt_setGetAccount (c : Connector) (ln : LibraryName)
    (f : Library → Except Err (Option String))
    (himm : c.activateAccountImmediately = false) :
    activationAttempt (setGetAccount f c) ln = activationAttempt c ln := by
  simp [activationAttempt, setGetAccount, himm]

theorem keys_mapGetAccount (f : Library → Except Err (Option String))
    (l : Connectors) : (mapGetAccount f l).map Prod.fst = l.map Prod.fst := by
  simp [mapGetAccount]

theorem lookup_mapGetAccount (f : Library → Except Err (Option String))
    (l : Connectors) (n : String) :
    (mapGetAccount f l).lookup n = (l.lookup n).map (setGetAccount f) := by
  induction l with
  | nil => rfl
  | cons p t ih =>
      obtain ⟨k, v⟩ := p
      simp only [mapGetAccount, List.map_cons, List.lookup_cons] at *
      cases hbk : n == k with
      | true => simp
      | false => simp [ih]

theorem activeConnector_mapGetAccount (f : Library → Except Err (Option String))
    (connectors : Connectors) (s : Web3State) :
    activeConnector (mapGetAccount f connectors) s =
      (activeConnector connectors s).map (setGetAccount f) := by
  unfold activeConnector
  cases s.connectorName with
  | none => rfl
  | some n =>
      by_cases hn : n = ""
      · simp [hn]
      · simp [hn, lookup_mapGetAccount, bne_iff_ne]

end ReactWeb3

namespace ReactWeb3

/-! ### Claim theorems -/

/-- Claim C5: for every name that is either not a key of the connector
registry or equal to the current snapshot's connectorName, `setConnector`
performs no state transition (state before equals state after) and returns
a promise that resolves rather than rejecting. -/
theorem setConnector_unknown_or_current_noop (connectors : Connectors)
    (ln : LibraryName) (name : String) (b : Bool) (s : Web3State)
    (h : name ∉ connectors.map Prod.fst ∨ s.connectorName = some name) :
    setConnector connectors ln name b s = (.ok (), s) := by
  rcases h with h | h
  · simp [setConnector, h]
  · by_cases hmem : name ∈ connectors.map Prod.fst
    · simp [setConnector, hmem, h]
    · simp [setConnector, hmem]

/-- Claim C5 witness: `setConnector` with an unregistered name on the empty
registry resolves and leaves the initial snapshot untouched. -/
theorem setConnector_unknown_or_current_noop_witness :
    setConnector [] "web3.js" "nope" true initialWeb3State =
      (.ok (), initialWeb3State) :=
  setConnector_unknown_or_current_noop [] "web3.js" "nope" true initialWeb3State
    (Or.inl (by simp))

/-- Claim C8: for every list of accounts delivered by an account-change
event, the listener dispatches `UPDATE_ACCOUNT` with the first element of
the list; for the empty list the committed account value is `undefined`
(the absent marker `none`), not `null`, and the rest of the snapshot is
preserved (no reset). -/
theorem accountsChangedListenerHandler_takes_head (s : Web3State)
    (accounts : List String) :
    accountsChangedListenerHandler s accounts =
      { s with account := accounts.head?.map some } ∧
    accountsChangedListenerHandler s [] = { s with account := none } ∧
    (accountsChangedListenerHandler s []).account ≠ some none := by
  refine ⟨rfl, rfl, by simp [accountsChangedListenerHandler, web3StateReducer]⟩

/-- Claim C10: `processError` never returns a non-undefined value — for the
recognized WalletConnect timeout code it returns `undefined` without
dispatching, and for every other error it dispatches the error to the state
store and then throws it; hence the `if (processedError) throw processedError`
branches in its callers are dead. -/
theorem processError_never_returns_value (e : Err) (n : Option String)
    (s : Web3State) :
    (∀ pe, (processError e n s).1 ≠ Except.ok (some pe)) ∧
    (e.code = some WALLETCONNECT_TIMEOUT → processError e n s = (.ok none, s)) ∧
    (e.code ≠ some WALLETCONNECT_TIMEOUT →
      (processError e n s).1 = .error e ∧ (processError e n s).2.error = some e) := by
  by_cases h : e.code = some WALLETCONNECT_TIMEOUT
  · refine ⟨fun pe => ?_, fun _ => by simp [processError, h], fun hc => absurd h hc⟩
    simp [processError, h]
  · refine ⟨fun pe => ?_, fun hc => absurd hc h, fun _ => ?_⟩
    · cases n with
      | none => simp [processError, h]
      | some nm =>
          by_cases hnm : nm = "" <;> simp [processError, h, hnm]
    · cases n with
      | none => simp [processError, h, web3StateReducer]
      | some nm =>
          by_cases hnm : nm = "" <;>
            simp [processError, h, hnm, web3StateReducer]

/-- Claim C10 witness: at concrete inputs, a timeout-coded error is eaten
with no dispatch, and a non-timeout error is thrown after being committed. -/
theorem processError_never_returns_value_witness :
    processError eTimeout (some "injected") initialWeb3State =
      (.ok none, initialWeb3State) ∧
    (processError eBoom (some "injected") initialWeb3State).1 = .error eBoom ∧
    (processError eBoom (some "injected") initialWeb3State).2.error = some eBoom :=
  ⟨(processError_never_returns_value eTimeout (some "injected") initialWeb3State).2.1
      (by decide),
   (processError_never_returns_value eBoom (some "injected") initialWeb3State).2.2
      (by decide)⟩

end ReactWeb3

namespace ReactWeb3

theorem truthyString_eq_true_iff (o : Option String) :
    truthyString o = true ↔ ∃ n, o = some n ∧ n ≠ "" := by
  cases o <;> simp [truthyString]

theorem truthyNat_eq_true_iff (o : Option Nat) :
    truthyNat o = true ↔ ∃ i, o = some i ∧ i ≠ 0 := by
  cases o <;> simp [truthyNat]

/-- Claim C4 counterexample: a snapshot in which `connectorName`, `library`
and `networkId` are all present, `account` is not absent and `error` is
null, yet `web3Initialized` is false — because the present `connectorName`
is the empty string and the present `networkId` is `0`, both falsy under the
JS truthiness test the source uses. -/
theorem web3Initialized_presence_counterexample :
    web3InitializedPresence cexPresenceState = true ∧
    web3Initialized cexPresenceState = false := by decide

/-- Claim C4 amended: `web3Initialized` is true iff `connectorName` is
present and non-empty, `library` is present, `networkId` is present and
non-zero, `account` is not absent, and `error` is null; in particular it is
false whenever `error` is set. -/
theorem web3Initialized_iff_truthy (s : Web3State) :
    web3Initialized s = true ↔
      ((∃ n, s.connectorName = some n ∧ n ≠ "") ∧ s.library ≠ none ∧
       (∃ i, s.networkId = some i ∧ i ≠ 0) ∧ s.account ≠ none ∧
       s.error = none) := by
  simp [web3Initialized, Bool.and_eq_true, truthyString_eq_true_iff,
    truthyNat_eq_true_iff, Option.isSome_iff_ne_none, Option.isNone_iff_eq_none,
    and_assoc]

end ReactWeb3

namespace ReactWeb3

/-- Claim C1 counterexample: the empty string is a registered name whose
connector rejects activation with a non-timeout error, yet after
`setConnector("", false)` the snapshot's `connectorName` is not the
attempted name — `processError`'s truthiness test `if (connectorName)`
treats the empty string as absent and commits the error globally via
`UPDATE_ERROR`, leaving `connectorName` untouched. -/
theorem setConnector_emptyName_counterexample :
    ("" ∈ regEmptyName.map Prod.fst) ∧
    (regEmptyName.lookup "").map Connector.onActivation =
      some (Except.error eBoom) ∧
    eBoom.code ≠ some WALLETCONNECT_TIMEOUT ∧
    setConnector regEmptyName "web3.js" "" false initialWeb3State =
      (.error eBoom, { initialWeb3State with error := some eBoom }) ∧
    (setConnector regEmptyName "web3.js" "" false initialWeb3State).2.connectorName
      ≠ some "" := by
  refine ⟨by decide, rfl, by decide, rfl, by decide⟩

/-- Claim C1 amended: for every registered connector under a non-empty name
not currently active, if its activation rejects with an error whose code is
not the WalletConnect timeout code, then `setConnector(name, false)`
rejects with that same error and the snapshot afterwards carries that error
with `connectorName` equal to the attempted name. (For the empty-string
name the error is committed globally and `connectorName` is not
overwritten.) -/
theorem setConnector_unsuppressed_commits_scoped_error
    (connectors : Connectors) (ln : LibraryName) (name : String)
    (c : Connector) (e : Err) (s : Web3State)
    (hreg : connectors.lookup name = some c)
    (hact : c.onActivation = .error e)
    (hcode : e.code ≠ some WALLETCONNECT_TIMEOUT)
    (hname : name ≠ "")
    (hcur : s.connectorName ≠ some name) :
    setConnector connectors ln name false s =
      (.error e, { s with error := some e, connectorName := some name }) := by
  rw [setConnector_proceeds connectors ln name false s
    (mem_keys_of_lookup_eq_some hreg) hcur]
  simp [initializeConnectorValues, hreg,
    activationAttempt_error_of_onActivation hact, exceptMap_error,
    processError, hcode, hname, web3StateReducer]

/-- Claim C1 amended witness: the failing connector registered as
"injected", attempted from the initial state with suppression off, rejects
with `eBoom` and commits it scoped to "injected". -/
theorem setConnector_unsuppressed_commits_scoped_error_witness :
    setConnector [("injected", cBad)] "web3.js" "injected" false initialWeb3State =
      (.error eBoom,
       { initialWeb3State with error := some eBoom,
                               connectorName := some "injected" }) :=
  setConnector_unsuppressed_commits_scoped_error [("injected", cBad)] "web3.js"
    "injected" cBad eBoom initialWeb3State rfl rfl (by decide) (by decide)
    (by decide)

/-- Claim C2: for every registered connector whose activation rejects with
the recognized WalletConnect-timeout code, `setConnector(name, false)`
resolves and the snapshot is unchanged — in particular `error` stays as it
was (null stays null). -/
theorem setConnector_timeout_swallowed (connectors : Connectors)
    (ln : LibraryName) (name : String) (c : Connector) (e : Err) (s : Web3State)
    (hreg : connectors.lookup name = some c)
    (hact : c.onActivation = .error e)
    (hcode : e.code = some WALLETCONNECT_TIMEOUT) :
    setConnector connectors ln name false s = (.ok (), s) := by
  by_cases hcur : s.connectorName = some name
  · by_cases hmem : name ∈ connectors.map Prod.fst
    · simp [setConnector, hmem, hcur]
    · simp [setConnector, hmem]
  · rw [setConnector_proceeds connectors ln name false s
      (mem_keys_of_lookup_eq_some hreg) hcur]
    simp [initializeConnectorValues, hreg,
      activationAttempt_error_of_onActivation hact, exceptMap_error,
      processError, hcode]

/-- Claim C2 witness: a timeout-rejecting connector attempted with
suppression off resolves and leaves the initial snapshot untouched. -/
theorem setConnector_timeout_swallowed_witness :
    setConnector [("wc", cTimeoutRejecting)] "web3.js" "wc" false initialWeb3State =
      (.ok (), initialWeb3State) :=
  setConnector_timeout_swallowed [("wc", cTimeoutRejecting)] "web3.js" "wc"
    cTimeoutRejecting eTimeout initialWeb3State rfl rfl rfl

/-- Claim C3: for every registered connector not currently active and every
error raised at any step of the activation sequence, `setConnector` with
`suppressGlobalError = true` rejects with the original error unmodified and
the shared snapshot is not modified by the failure. -/
theorem setConnector_suppressed_rejects_unchanged (connectors : Connectors)
    (ln : LibraryName) (name : String) (c : Connector) (e : Err) (s : Web3State)
    (hreg : connectors.lookup name = some c)
    (hatt : activationAttempt c ln = .error e)
    (hcur : s.connectorName ≠ some name) :
    setConnector connectors ln name true s = (.error e, s) := by
  rw [setConnector_proceeds connectors ln name true s
    (mem_keys_of_lookup_eq_some hreg) hcur]
  simp [initializeConnectorValues, hreg, hatt, exceptMap_error]

/-- Claim C3 witness: a connector whose network-id fetch rejects, attempted
with the default suppression, rejects with that error and leaves the
initial snapshot untouched. -/
theorem setConnector_suppressed_rejects_unchanged_witness :
    setConnector [("injected", cNetErr)] "web3.js" "injected" true initialWeb3State =
      (.error eBoom, initialWeb3State) :=
  setConnector_suppressed_rejects_unchanged [("injected", cNetErr)] "web3.js"
    "injected" cNetErr eBoom initialWeb3State rfl rfl (by decide)

end ReactWeb3

namespace ReactWeb3

/-- Claim C6: for every registered connector (not currently active) with
`activateAccountImmediately = false` whose activation hook, library fetch
and network-id fetch succeed, `setConnector` commits a snapshot whose
account is exactly null, and the outcome is independent of the connector's
account accessor — `getAccount` is never invoked. -/
theorem setConnector_noImmediateAccount (connectors : Connectors)
    (ln : LibraryName) (name : String) (c : Connector) (lib : Library)
    (nid : Nat) (b : Bool) (s : Web3State)
    (hreg : connectors.lookup name = some c)
    (himm : c.activateAccountImmediately = false)
    (hact : c.onActivation = .ok ())
    (hlib : c.getLibrary ln = .ok lib)
    (hnid : c.getNetworkId lib = .ok nid)
    (hcur : s.connectorName ≠ some name) :
    setConnector connectors ln name b s =
      (.ok (), { connectorName := some name, library := some lib,
                 networkId := some nid, account := some none, error := none }) ∧
    ∀ f, setConnector (mapGetAccount f connectors) ln name b s =
      setConnector connectors ln name b s := by
  have hmem := mem_keys_of_lookup_eq_some hreg
  have h1 : setConnector connectors ln name b s =
      (.ok (), { connectorName := some name, library := some lib,
                 networkId := some nid, account := some none, error := none }) := by
    rw [setConnector_proceeds connectors ln name b s hmem hcur]
    simp [initializeConnectorValues, hreg,
      activationAttempt_ok_noImmediate hact hlib hnid himm, exceptMap_ok,
      web3StateReducer]
  refine ⟨h1, fun f => ?_⟩
  have hreg2 : (mapGetAccount f connectors).lookup name =
      some (setGetAccount f c) := by
    rw [lookup_mapGetAccount, hreg]
    rfl
  have hmem2 : name ∈ (mapGetAccount f connectors).map Prod.fst := by
    rw [keys_mapGetAccount]
    exact hmem
  have hatt2 : activationAttempt (setGetAccount f c) ln = .ok (lib, nid, none) := by
    rw [activationAttempt_setGetAccount c ln f himm]
    exact activationAttempt_ok_noImmediate hact hlib hnid himm
  rw [setConnector_proceeds (mapGetAccount f connectors) ln name b s hmem2 hcur, h1]
  simp [initializeConnectorValues, hreg2, hatt2, exceptMap_ok, web3StateReducer]

/-- Claim C6 witness: the no-immediate-account connector commits a snapshot
with account null, and replacing its account accessor by one that always
rejects does not change the outcome. -/
theorem setConnector_noImmediateAccount_witness :
    setConnector [("injected", cNoImm)] "web3.js" "injected" true initialWeb3State =
      (.ok (), { connectorName := some "injected", library := some 7,
                 networkId := some 1, account := some none, error := none }) ∧
    setConnector (mapGetAccount failingFetch [("injected", cNoImm)]) "web3.js"
        "injected" true initialWeb3State =
      setConnector [("injected", cNoImm)] "web3.js" "injected" true initialWeb3State :=
  ⟨(setConnector_noImmediateAccount [("injected", cNoImm)] "web3.js" "injected"
      cNoImm 7 1 true initialWeb3State rfl rfl rfl rfl rfl (by decide)).1,
   (setConnector_noImmediateAccount [("injected", cNoImm)] "web3.js" "injected"
      cNoImm 7 1 true initialWeb3State rfl rfl rfl rfl rfl (by decide)).2
     failingFetch⟩

theorem activateAccount_guard_noop (l : Connectors) (b : Bool) (s : Web3State)
    (h : web3Initialized s = false ∨ s.account ≠ some none ∨
         activeConnector l s = none ∨ s.library = none) :
    activateAccount l b s = (.ok (), s) := by
  unfold activateAccount
  by_cases h1 : web3Initialized s
  · by_cases h2 : s.account = some none
    · rcases h with h | h | h | h
      · rw [h1] at h
        cases h
      · exact absurd h2 h
      · cases hlb : s.library <;> simp [h1, h2, h, hlb]
      · cases hac : activeConnector l s <;> simp [h1, h2, h, hac]
    · simp [h1, h2, bne_iff_ne]
  · simp [h1]

/-- Claim C7: `activateAccount` is a no-op — no state transition, a
resolving promise, and no account fetch — whenever the manager is not
initialized, or the snapshot's account is not null, or no active connector
or library exists. Independence from every connector's account accessor
expresses that no fetch happens. -/
theorem activateAccount_precondition_noop (connectors : Connectors) (b : Bool)
    (s : Web3State)
    (h : web3Initialized s = false ∨ s.account ≠ some none ∨
         activeConnector connectors s = none ∨ s.library = none) :
    activateAccount connectors b s = (.ok (), s) ∧
    ∀ f, activateAccount (mapGetAccount f connectors) b s = (.ok (), s) := by
  refine ⟨activateAccount_guard_noop connectors b s h,
    fun f => activateAccount_guard_noop (mapGetAccount f connectors) b s ?_⟩
  rcases h with h | h | h | h
  · exact Or.inl h
  · exact Or.inr (Or.inl h)
  · refine Or.inr (Or.inr (Or.inl ?_))
    rw [activeConnector_mapGetAccount, h]
    rfl
  · exact Or.inr (Or.inr (Or.inr h))

/-- Claim C7 witness: on the uninitialized initial state, `activateAccount`
resolves without touching the state, also after every account accessor is
replaced by a rejecting one. -/
theorem activateAccount_precondition_noop_witness :
    activateAccount [("injected", cGood)] true initialWeb3State =
      (.ok (), initialWeb3State) ∧
    activateAccount (mapGetAccount failingFetch [("injected", cGood)]) true
      initialWeb3State = (.ok (), initialWeb3State) :=
  ⟨(activateAccount_precondition_noop [("injected", cGood)] true initialWeb3State
      (Or.inl (by decide))).1,
   (activateAccount_precondition_noop [("injected", cGood)] true initialWeb3State
      (Or.inl (by decide))).2 failingFetch⟩

end ReactWeb3
